import Mathlib

/-!
Verification of the intent-classification chat responder (newchatbot.py).

The Python source is shallowly embedded: the intent catalog is a list of
records, the per-turn response path (`chatbot_response`), the training-set
construction and the startup checks of `initialize_models` / `load_intents`,
and the CSV conversation log (`save_conversation`) are translated into
executable Lean definitions.  External collaborators are taken at their
interfaces: `random.choice` becomes a choice driven by an arbitrary natural
number, scikit-learn's TfidfVectorizer becomes the term-count-times-idf map
over the vocabulary collected from the training texts (the idf table and the
tokenizer, fitted respectively computed by the library, are parameters), and
LogisticRegression's `predict` becomes the argmax of per-class scores, the
learned score table being a parameter.  The library's floating-point
statistics are modelled over ℤ: every statement quantifies over the fitted
tables, and only the ordered-ring structure of the values enters.
`st.stop()` is modelled as `none` (the script halts), and
raised-then-caught Python exceptions as `Except`.
-/

/-- One record of the intent catalog: the `tag`, its training `patterns`
and its candidate `responses`, exactly the fields `intents.json` carries. -/
structure IntentRecord where
  tag : String
  patterns : List String
  responses : List String
deriving DecidableEq, Repr

/-- The intent catalog: the `intents` list of the loaded JSON document. -/
abbrev Catalog := List IntentRecord

/-- Python's `str.lower()`: character-wise lower-casing.  It is written
over the string's character list directly so that concrete evaluations
reduce inside the kernel. -/
def lower (s : String) : String := String.mk (s.data.map Char.toLower)

/-- The label column built by `initialize_models`:
`tags.extend([intent.tag] * len(intent.patterns))` over the catalog. -/
def trainingTags (c : Catalog) : List String :=
  c.flatMap fun intent => intent.patterns.map fun _ => intent.tag

/-- The text column built by `initialize_models`:
`patterns.extend([pattern.lower() for pattern in intent.patterns])`. -/
def trainingPatterns (c : Catalog) : List String :=
  c.flatMap fun intent => intent.patterns.map lower

/-- The hard-coded generic replies of `chatbot_response`. -/
def fallback_responses : List String :=
  ["I'm not sure I understand. Could you rephrase?",
   "Sorry, I didn't catch that. Could you explain further?",
   "I'm still learning. Please provide more details."]

/-- The string the `except` clause of `chatbot_response` returns. -/
def apology : String := "Oops! Something went wrong."

/-- `random.choice(xs)`: raises `IndexError` on an empty list, otherwise
returns the element at the random draw `k`, reduced modulo the length. -/
def randomChoice (k : Nat) (xs : List String) : Except Unit String :=
  if xs.isEmpty then Except.error () else Except.ok (xs.getD (k % xs.length) "")

/-- The selection body of `chatbot_response` after the tag is predicted:
the first loop returns a random response of the first record whose tag
equals the prediction; otherwise the record tagged literally "fallback" is
searched for, and failing that the built-in generic replies are used.
`k1` drives the draw of the loop, `k2` the draw of the fallback branch. -/
def select_response (intents : Catalog) (k1 k2 : Nat) (predicted_tag : String) :
    Except Unit String :=
  match intents.find? fun intent => intent.tag == predicted_tag with
  | some intent => randomChoice k1 intent.responses
  | none =>
    match intents.find? fun intent => intent.tag == "fallback" with
    | some fallback => randomChoice k2 fallback.responses
    | none => randomChoice k2 fallback_responses

/-- `chatbot_response(user_input)`: the input is lower-cased and handed to
the vectorize-and-predict step (`predictTag`, which may raise), the
predicted tag is turned into a response by the selection body, and any
exception raised along the way is caught and mapped to the apology. -/
def chatbot_response (predictTag : String → Except Unit String)
    (intents : Catalog) (k1 k2 : Nat) (user_input : String) : String :=
  match predictTag (lower user_input) with
  | Except.error _ => apology
  | Except.ok predicted_tag =>
    match select_response intents k1 k2 predicted_tag with
    | Except.ok s => s
    | Except.error _ => apology

/-- One row of `chat_history.csv`: the `User`, `Response` and `Timestamp`
columns; the timestamp is modelled as the instant `datetime.datetime.now()`
returned (its ISO-8601 rendering is the datetime library's). -/
structure ConversationTurn where
  user : String
  response : String
  timestamp : Nat
deriving DecidableEq, Repr

/-- `save_conversation(user_input, response)`: the store is the history
file, `none` when it does not exist; the new row is appended to the rows
read back, or forms the whole file when there was none, and the result is
written out. -/
def save_conversation (store : Option (List ConversationTurn))
    (user_input response : String) (now : Nat) : Option (List ConversationTurn) :=
  let new_entry : List ConversationTurn := [⟨user_input, response, now⟩]
  match store with
  | some history_df => some (history_df ++ new_entry)
  | none => some new_entry

/-- Reading the full history (`pd.read_csv` when the file exists, no rows
otherwise), as `display_chat_history` does. -/
def readHistory (store : Option (List ConversationTurn)) : List ConversationTurn :=
  store.getD []

/-- C8: appending a turn leaves the previous history unchanged, adds exactly
one row at the end whose User field is the input, whose Response field is
the response and whose timestamp is the (not earlier than) call-time
instant. -/
theorem c8_logging_roundtrip (store : Option (List ConversationTurn))
    (user_input response : String) (now : Nat) :
    readHistory (save_conversation store user_input response now)
        = readHistory store ++ [⟨user_input, response, now⟩]
    ∧ (readHistory (save_conversation store user_input response now)).getLast?
        = some ⟨user_input, response, now⟩
    ∧ now ≤ (ConversationTurn.mk user_input response now).timestamp := by
  refine ⟨?_, ?_, le_refl _⟩
  · cases store <;> rfl
  · cases store <;> simp [save_conversation, readHistory]

/-- C10: the first-ever append, with no history file present, succeeds and
creates a store holding exactly the one new row. -/
theorem c10_first_append_creates (user_input response : String) (now : Nat) :
    save_conversation none user_input response now
        = some [⟨user_input, response, now⟩]
    ∧ (readHistory (save_conversation none user_input response now)).length = 1 :=
  ⟨rfl, rfl⟩

/-- A successful random choice is a member of the list it drew from. -/
theorem randomChoice_ok_mem (k : Nat) (xs : List String) (s : String)
    (h : randomChoice k xs = Except.ok s) : s ∈ xs := by
  unfold randomChoice at h
  by_cases he : xs.isEmpty
  · rw [if_pos he] at h
    cases h
  · rw [if_neg he] at h
    injection h with h
    have hlen : 0 < xs.length := by
      cases xs with
      | nil => simp at he
      | cons a l => simp
    have hidx : k % xs.length < xs.length := Nat.mod_lt _ hlen
    rw [← h, List.getD_eq_getElem xs "" hidx]
    exact List.getElem_mem hidx

/-- A nonempty list always yields a successful random choice. -/
theorem randomChoice_ok_of_ne_nil (k : Nat) (xs : List String) (h : xs ≠ []) :
    ∃ s, randomChoice k xs = Except.ok s ∧ s ∈ xs := by
  have hne : ¬(xs.isEmpty = true) := by simpa using h
  refine ⟨xs.getD (k % xs.length) "", ?_, ?_⟩
  · unfold randomChoice
    rw [if_neg hne]
  · apply randomChoice_ok_mem k xs
    unfold randomChoice
    rw [if_neg hne]

/-- With pairwise distinct tags (the catalog invariant), the linear search
of the response loop finds exactly the record carrying the wanted tag. -/
theorem find?_tag_of_nodup (c : Catalog) (r : IntentRecord) (t : String)
    (hnd : (c.map IntentRecord.tag).Nodup) (hr : r ∈ c) (ht : r.tag = t) :
    (c.find? fun x => x.tag == t) = some r := by
  induction c with
  | nil => cases hr
  | cons a l ih =>
    rw [List.map_cons, List.nodup_cons] at hnd
    rcases List.mem_cons.mp hr with rfl | hmem
    · rw [List.find?_cons_of_pos (p := fun x : IntentRecord => x.tag == t) _ (beq_iff_eq.mpr ht)]
    · have hne : ¬((a.tag == t) = true) := by
        simp only [beq_iff_eq]
        intro hEq
        apply hnd.1
        rw [hEq, ← ht]
        exact List.mem_map_of_mem IntentRecord.tag hmem
      rw [List.find?_cons_of_neg (p := fun x : IntentRecord => x.tag == t) _ hne]
      exact ih hnd.2 hmem

/-- The zipped training columns are exactly the per-record pairing of the
record's tag with each of its lower-cased patterns, flattened. -/
theorem trainingZip_eq (c : Catalog) :
    (trainingTags c).zip (trainingPatterns c)
      = c.flatMap fun r => r.patterns.map fun p => (r.tag, lower p) := by
  induction c with
  | nil => rfl
  | cons a l ih =>
    simp only [trainingTags, trainingPatterns, List.flatMap_cons] at *
    rw [List.zip_append (by simp), List.zip_map', ih]

/-- C4: the training set pairs each record's lower-cased patterns 1:1 with
the record's tag: the label and text columns have equal length, position i
of one corresponds to position i of the other through the per-record
flattening, and a record with N patterns contributes exactly N examples. -/
theorem c4_training_set_pairing (c : Catalog) :
    (trainingTags c).length = (trainingPatterns c).length
    ∧ (trainingTags c).zip (trainingPatterns c)
        = (c.flatMap fun r => r.patterns.map fun p => (r.tag, lower p))
    ∧ (trainingPatterns c).length = (c.map fun r => r.patterns.length).sum := by
  refine ⟨?_, trainingZip_eq c, ?_⟩
  · simp [trainingTags, trainingPatterns, Function.comp_def]
  · simp [trainingPatterns, Function.comp_def]

/-- Evaluating chatbot_response when prediction succeeds and selection
succeeds: the selected string is returned unchanged. -/
theorem chatbot_response_of_ok (predictTag : String → Except Unit String)
    (intents : Catalog) (k1 k2 : Nat) (input tag s : String)
    (hp : predictTag (lower input) = Except.ok tag)
    (hsel : select_response intents k1 k2 tag = Except.ok s) :
    chatbot_response predictTag intents k1 k2 input = s := by
  unfold chatbot_response
  simp only [hp, hsel]

/-- The vocabulary TfidfVectorizer fits: every token the tokenizer yields
on some training text.  Scikit-learn also sorts the vocabulary to assign
feature indices; the order carries no weight here, so the fitted vocabulary
is kept as the deduplicated token list.  The tokenizer itself is
`nltk.word_tokenize`, an external collaborator, hence a parameter. -/
def buildVocab (tok : String → List String) (texts : List String) : List String :=
  (texts.flatMap tok).dedup

/-- `vectorizer.transform([text])`: the vector, indexed by vocabulary
entry, of term count times the fitted idf weight; a token outside the
fitted vocabulary indexes no component and so contributes nothing.  The
idf table is the library's fitted statistic and enters as a parameter.
The library finally rescales each document vector by a positive scalar
(l2 normalisation); since the classifier's score table below is itself an
arbitrary parameter, interposing that rescaling changes nothing in the
claims, and it is omitted. -/
def transform (tok : String → List String) (idf : String → ℤ)
    (vocab : List String) (text : String) : String → ℤ :=
  fun v => if v ∈ vocab then ((tok text).count v : ℤ) * idf v else 0

/-- First maximiser of `f` over a list: the earliest entry attaining the
maximal value, as numpy's argmax (used by `predict`) breaks ties. -/
def argmaxBy (f : String → ℤ) : List String → Option String
  | [] => none
  | x :: xs =>
    match argmaxBy f xs with
    | none => some x
    | some y => if f x < f y then some y else some x

/-- `clf.predict(...)[0]`: the class whose decision score is highest.  The
learned per-class score function (weights and intercept applied to the
feature vector) is the fitted statistic and enters as a parameter. -/
def lrPredict (score : String → (String → ℤ) → ℤ) (classes : List String)
    (x : String → ℤ) : Option String :=
  argmaxBy (fun cls => score cls x) classes

/-- `clf.classes_`: the distinct labels of the training set (scikit-learn
sorts them; the order is immaterial here). -/
def classesOf (c : Catalog) : List String := (trainingTags c).dedup

/-- The vocabulary fitted on the catalog's lower-cased patterns. -/
def vocabOf (tok : String → List String) (c : Catalog) : List String :=
  buildVocab tok (trainingPatterns c)

/-- The prediction path of `chatbot_response` lines 90-91: lower-case the
input, transform it through the fitted vectorizer, and take the
classifier's highest-scoring class. -/
def pipelinePredict (tok : String → List String) (idf : String → ℤ)
    (score : String → (String → ℤ) → ℤ) (c : Catalog) (text : String) :
    Option String :=
  lrPredict score (classesOf c) (transform tok idf (vocabOf tok c) (lower text))

/-- argmaxBy returns none exactly on the empty list. -/
theorem argmaxBy_eq_none (f : String → ℤ) (l : List String) :
    argmaxBy f l = none ↔ l = [] := by
  cases l with
  | nil => simp [argmaxBy]
  | cons x xs =>
    constructor
    · intro h
      exfalso
      unfold argmaxBy at h
      cases hm : argmaxBy f xs with
      | none => simp only [hm] at h; cases h
      | some y =>
        simp only [hm] at h
        by_cases hc : f x < f y
        · rw [if_pos hc] at h; cases h
        · rw [if_neg hc] at h; cases h
    · intro h; cases h

/-- argmaxBy of a nonempty list succeeds. -/
theorem argmaxBy_isSome (f : String → ℤ) (l : List String) (h : l ≠ []) :
    ∃ y, argmaxBy f l = some y := by
  cases hm : argmaxBy f l with
  | none => exact absurd ((argmaxBy_eq_none f l).mp hm) h
  | some y => exact ⟨y, rfl⟩

/-- The argmax is a member of the list. -/
theorem argmaxBy_mem (f : String → ℤ) (l : List String) (y : String)
    (h : argmaxBy f l = some y) : y ∈ l := by
  induction l generalizing y with
  | nil => cases h
  | cons x xs ih =>
    unfold argmaxBy at h
    cases hm : argmaxBy f xs with
    | none =>
      simp only [hm] at h
      injection h with h
      exact h ▸ List.mem_cons_self x xs
    | some z =>
      simp only [hm] at h
      by_cases hc : f x < f z
      · rw [if_pos hc] at h
        injection h with h
        subst h
        exact List.mem_cons_of_mem x (ih _ hm)
      · rw [if_neg hc] at h
        injection h with h
        exact h ▸ List.mem_cons_self x xs

/-- The argmax attains the maximal value of `f` on the list. -/
theorem argmaxBy_le (f : String → ℤ) (l : List String) (y : String)
    (h : argmaxBy f l = some y) : ∀ z ∈ l, f z ≤ f y := by
  induction l generalizing y with
  | nil => intro z hz; cases hz
  | cons x xs ih =>
    intro z hz
    unfold argmaxBy at h
    cases hm : argmaxBy f xs with
    | none =>
      simp only [hm] at h
      injection h with h
      have hxs : xs = [] := (argmaxBy_eq_none f xs).mp hm
      subst hxs
      rcases List.mem_cons.mp hz with rfl | hz2
      · rw [h]
      · cases hz2
    | some w =>
      simp only [hm] at h
      by_cases hc : f x < f w
      · rw [if_pos hc] at h
        injection h with h
        subst h
        rcases List.mem_cons.mp hz with rfl | hz2
        · exact le_of_lt hc
        · exact ih _ hm z hz2
      · rw [if_neg hc] at h
        injection h with h
        subst h
        rcases List.mem_cons.mp hz with rfl | hz2
        · exact le_refl _
        · exact le_trans (ih _ hm z hz2) (not_lt.mp hc)

/-- The fitted state `initialize_models` returns: the vectorizer's
vocabulary and idf table and the classifier's class list and score table. -/
structure Models where
  vocab : List String
  idf : String → ℤ
  classes : List String
  score : String → (String → ℤ) → ℤ

/-- `initialize_models(_intents)`: build the two training columns, stop the
script (`st.stop()`, modelled as `none`) when either is empty, otherwise
fit vectorizer and classifier.  The library's fitting computations are
deterministic functions of the training columns and, for the classifier, of
the seed `random_state`; they enter as the parameter families `idfF` and
`fitF`, and the source pins the seed to the literal 0
(`LogisticRegression(random_state=0, max_iter=1000)`). -/
def initialize_models (tok : String → List String)
    (idfF : List String → String → ℤ)
    (fitF : Nat → List String → List String → String → (String → ℤ) → ℤ)
    (c : Catalog) : Option Models :=
  let tags := trainingTags c
  let patterns := trainingPatterns c
  if tags.isEmpty || patterns.isEmpty then none
  else some ⟨buildVocab tok patterns, idfF patterns, tags.dedup, fitF 0 patterns tags⟩

/-- What `load_intents` can find on disk: no file, a file that is not valid
JSON, or a parsed document carrying its `intents` list. -/
inductive LoadResult where
  | missing
  | malformed
  | parsed (intents : Catalog)

/-- `load_intents()`: a missing file or invalid JSON is reported and the
empty catalog returned; a parsed document whose `intents` entry is empty or
absent stops the script (`st.stop()`, modelled as `none`). -/
def load_intents : LoadResult → Option Catalog
  | LoadResult.missing => some []
  | LoadResult.malformed => some []
  | LoadResult.parsed c => if c.isEmpty then none else some c

/-- The module-level startup: `intents = load_intents()` followed by
`vectorizer, clf = initialize_models(intents)`; the script reaches the
serving state only when both complete. -/
def startup (tok : String → List String) (idfF : List String → String → ℤ)
    (fitF : Nat → List String → List String → String → (String → ℤ) → ℤ)
    (file : LoadResult) : Option Models :=
  match load_intents file with
  | none => none
  | some c => initialize_models tok idfF fitF c

/-- Prediction through a fitted `Models` value, as lines 90-91 run it. -/
def predictWithModels (tok : String → List String) (m : Models) (t : String) :
    Option String :=
  lrPredict m.score m.classes (transform tok m.idf m.vocab (lower t))

/-- C5: prediction lower-cases the input before vectorizing it, every token
outside the vocabulary fixed at training time indexes a zero component of
the transformed vector (no error is possible), and the classifier returns
the single highest-scoring class, which is always a tag occurring among the
training labels: there is no confidence threshold and no unknown class. -/
theorem c5_prediction_shape (tok : String → List String) (idf : String → ℤ)
    (score : String → (String → ℤ) → ℤ) (c : Catalog) (t : String)
    (htrain : trainingTags c ≠ []) :
    pipelinePredict tok idf score c t
        = lrPredict score (classesOf c) (transform tok idf (vocabOf tok c) (lower t))
    ∧ (∀ v, v ∉ vocabOf tok c → transform tok idf (vocabOf tok c) (lower t) v = 0)
    ∧ ∃ tag, pipelinePredict tok idf score c t = some tag
        ∧ tag ∈ trainingTags c
        ∧ ∀ cls ∈ classesOf c,
            score cls (transform tok idf (vocabOf tok c) (lower t))
              ≤ score tag (transform tok idf (vocabOf tok c) (lower t)) := by
  refine ⟨rfl, ?_, ?_⟩
  · intro v hv
    unfold transform
    rw [if_neg hv]
  · have hcl : classesOf c ≠ [] := by
      simp only [classesOf]
      intro h
      exact htrain ((List.dedup_eq_nil (trainingTags c)).mp h)
    obtain ⟨tag, htag⟩ :=
      argmaxBy_isSome
        (fun cls => score cls (transform tok idf (vocabOf tok c) (lower t)))
        (classesOf c) hcl
    refine ⟨tag, htag, ?_, ?_⟩
    · exact List.mem_dedup.mp (argmaxBy_mem _ _ _ htag)
    · intro cls hcls
      exact argmaxBy_le _ _ _ htag cls hcls

/-- C6: training is deterministic: two runs of initialize_models on the
same catalog (the stochastic seed pinned to 0 by the source) give fitted
models that predict identically on every input. -/
theorem c6_training_deterministic (tok : String → List String)
    (idfF : List String → String → ℤ)
    (fitF : Nat → List String → List String → String → (String → ℤ) → ℤ)
    (c : Catalog) (m1 m2 : Models) (t : String)
    (h1 : initialize_models tok idfF fitF c = some m1)
    (h2 : initialize_models tok idfF fitF c = some m2) :
    predictWithModels tok m1 t = predictWithModels tok m2 t := by
  rw [h1] at h2
  injection h2 with h2
  rw [h2]

/-- C7: the serving state is reached only from a parsed catalog that
produced at least one training example; a missing file, malformed JSON, an
empty or absent intents list, or records whose pattern lists are all empty
each halt startup, so chatbot_response is unreachable unless the models
were fit on at least one example. -/
theorem c7_no_serving_on_empty_training (tok : String → List String)
    (idfF : List String → String → ℤ)
    (fitF : Nat → List String → List String → String → (String → ℤ) → ℤ)
    (file : LoadResult)
    (hserve : (startup tok idfF fitF file).isSome = true) :
    ∃ c, file = LoadResult.parsed c
      ∧ trainingTags c ≠ [] ∧ trainingPatterns c ≠ [] := by
  cases file with
  | missing =>
    simp [startup, load_intents, initialize_models, trainingTags,
      trainingPatterns] at hserve
  | malformed =>
    simp [startup, load_intents, initialize_models, trainingTags,
      trainingPatterns] at hserve
  | parsed c =>
    by_cases hc : c.isEmpty
    · exfalso
      simp [startup, load_intents, hc] at hserve
    · have hload : load_intents (LoadResult.parsed c) = some c := by
        simp [load_intents, hc]
      refine ⟨c, rfl, ?_, ?_⟩
      · intro h0
        have h1 : (trainingTags c).isEmpty = true := by simp [h0]
        simp [startup, hload, initialize_models, h1] at hserve
      · intro h0
        have h1 : (trainingPatterns c).isEmpty = true := by simp [h0]
        simp [startup, hload, initialize_models, h1] at hserve

/-- A catalog in which two records with different tags share the same
training pattern. -/
def duplicatePatternCatalog : Catalog :=
  [⟨"a", ["Hi"], ["ra"]⟩, ⟨"b", ["Hi"], ["rb"]⟩]

/-- C9 is refuted as stated: prediction is a deterministic function of the
transformed input, so on the catalog whose records "a" and "b" both carry
the verbatim pattern "Hi", no tokenizer, idf table and fitted score table
whatsoever can return each record's own tag on its own pattern. -/
theorem c9_counterexample :
    ¬ ∃ (tok : String → List String) (idf : String → ℤ)
        (score : String → (String → ℤ) → ℤ),
        ∀ r ∈ duplicatePatternCatalog, ∀ p ∈ r.patterns,
          pipelinePredict tok idf score duplicatePatternCatalog p = some r.tag := by
  rintro ⟨tok, idf, score, h⟩
  have ha := h ⟨"a", ["Hi"], ["ra"]⟩ (by decide) "Hi" (by decide)
  have hb := h ⟨"b", ["Hi"], ["rb"]⟩ (by decide) "Hi" (by decide)
  rw [ha] at hb
  injection hb with hb
  exact absurd hb (by decide)

/-- C9 (amended): when the fitted classifier reproduces the training set —
on each training vector it predicts that example's label — predicting on
any record's verbatim pattern returns that record's tag, because the
prediction path feeds the classifier exactly the training vector of that
pattern. -/
theorem c9_verbatim_pattern_tag (tok : String → List String) (idf : String → ℤ)
    (score : String → (String → ℤ) → ℤ) (c : Catalog)
    (hfit : ∀ pr ∈ (trainingTags c).zip (trainingPatterns c),
        lrPredict score (classesOf c) (transform tok idf (vocabOf tok c) pr.2)
          = some pr.1)
    (r : IntentRecord) (hr : r ∈ c) (p : String) (hp : p ∈ r.patterns) :
    pipelinePredict tok idf score c p = some r.tag := by
  have hmem : (r.tag, lower p) ∈ (trainingTags c).zip (trainingPatterns c) := by
    rw [trainingZip_eq]
    exact List.mem_flatMap.mpr ⟨r, hr, List.mem_map.mpr ⟨p, hp, rfl⟩⟩
  exact hfit (r.tag, lower p) hmem

/-- C1: when the predicted tag is the tag of a catalog record (tags unique
across the catalog, its responses nonempty, both as the data-model
invariant requires), the first loop of chatbot_response returns a member of
that record's responses — never a string outside them — whatever the
random draws. -/
theorem c1_selected_response_mem (intents : Catalog) (r : IntentRecord)
    (tag : String) (k1 k2 : Nat) (input : String)
    (hnd : (intents.map IntentRecord.tag).Nodup)
    (hr : r ∈ intents) (ht : r.tag = tag) (hresp : r.responses ≠ []) :
    chatbot_response (fun _ => Except.ok tag) intents k1 k2 input ∈ r.responses := by
  obtain ⟨s, hs, hmem⟩ := randomChoice_ok_of_ne_nil k1 r.responses hresp
  have hsel : select_response intents k1 k2 tag = Except.ok s := by
    unfold select_response
    rw [find?_tag_of_nodup intents r tag hnd hr ht]
    exact hs
  rw [chatbot_response_of_ok (fun _ => Except.ok tag) intents k1 k2 input tag s rfl hsel]
  exact hmem

/-- C2: for a predicted tag matching no record of the catalog, the selected
response comes from the record tagged literally "fallback" when one exists
(tags unique, its responses nonempty, per the data-model invariant), and
from the built-in fixed generic replies when no such record exists. -/
theorem c2_fallback_selection (intents : Catalog) (tag : String)
    (k1 k2 : Nat) (input : String)
    (hnd : (intents.map IntentRecord.tag).Nodup)
    (habs : ∀ r ∈ intents, r.tag ≠ tag) :
    (∀ fb ∈ intents, fb.tag = "fallback" → fb.responses ≠ [] →
        chatbot_response (fun _ => Except.ok tag) intents k1 k2 input ∈ fb.responses)
    ∧ ((∀ r ∈ intents, r.tag ≠ "fallback") →
        chatbot_response (fun _ => Except.ok tag) intents k1 k2 input
          ∈ fallback_responses) := by
  have hfindnone : (intents.find? fun intent => intent.tag == tag) = none :=
    List.find?_eq_none.mpr fun x hx => by simpa using habs x hx
  constructor
  · intro fb hfb htag hresp
    obtain ⟨s, hs, hmem⟩ := randomChoice_ok_of_ne_nil k2 fb.responses hresp
    have hsel : select_response intents k1 k2 tag = Except.ok s := by
      unfold select_response
      rw [hfindnone, find?_tag_of_nodup intents fb "fallback" hnd hfb htag]
      exact hs
    rw [chatbot_response_of_ok _ intents k1 k2 input tag s rfl hsel]
    exact hmem
  · intro hnofb
    have hf2 : (intents.find? fun intent => intent.tag == "fallback") = none :=
      List.find?_eq_none.mpr fun x hx => by simpa using hnofb x hx
    have hbne : fallback_responses ≠ [] := by simp [fallback_responses]
    obtain ⟨s, hs, hmem⟩ := randomChoice_ok_of_ne_nil k2 fallback_responses hbne
    have hsel : select_response intents k1 k2 tag = Except.ok s := by
      unfold select_response
      rw [hfindnone, hf2]
      exact hs
    rw [chatbot_response_of_ok _ intents k1 k2 input tag s rfl hsel]
    exact hmem

/-- Evaluating chatbot_response when the prediction step raises. -/
theorem chatbot_response_of_err (predictTag : String → Except Unit String)
    (intents : Catalog) (k1 k2 : Nat) (input : String)
    (hp : predictTag (lower input) = Except.error ()) :
    chatbot_response predictTag intents k1 k2 input = apology := by
  unfold chatbot_response
  simp only [hp]

/-- Evaluating chatbot_response when prediction succeeds but selection
raises (an empty response list reached random.choice). -/
theorem chatbot_response_of_selerr (predictTag : String → Except Unit String)
    (intents : Catalog) (k1 k2 : Nat) (input tag : String)
    (hp : predictTag (lower input) = Except.ok tag)
    (hsel : select_response intents k1 k2 tag = Except.error ()) :
    chatbot_response predictTag intents k1 k2 input = apology := by
  unfold chatbot_response
  simp only [hp, hsel]

/-- Every way the selection body can end: an exception, a response of some
catalog record, or a built-in generic reply. -/
theorem select_response_cases (intents : Catalog) (k1 k2 : Nat) (tag : String) :
    select_response intents k1 k2 tag = Except.error ()
    ∨ (∃ r ∈ intents, ∃ s ∈ r.responses,
        select_response intents k1 k2 tag = Except.ok s)
    ∨ ∃ s ∈ fallback_responses, select_response intents k1 k2 tag = Except.ok s := by
  have hstep : ∀ (xs : List String) (k : Nat),
      randomChoice k xs = Except.error ()
        ∨ ∃ s ∈ xs, randomChoice k xs = Except.ok s := by
    intro xs k
    cases hc : randomChoice k xs with
    | error e => cases e; exact Or.inl rfl
    | ok s => exact Or.inr ⟨s, randomChoice_ok_mem k xs s hc, rfl⟩
  cases hf : intents.find? fun intent => intent.tag == tag with
  | some r =>
    have hsel : select_response intents k1 k2 tag = randomChoice k1 r.responses := by
      unfold select_response
      rw [hf]
    rcases hstep r.responses k1 with h | ⟨s, hsmem, h⟩
    · exact Or.inl (hsel.trans h)
    · exact Or.inr (Or.inl ⟨r, List.mem_of_find?_eq_some hf, s, hsmem, hsel.trans h⟩)
  | none =>
    cases hf2 : intents.find? fun intent => intent.tag == "fallback" with
    | some fb =>
      have hsel : select_response intents k1 k2 tag = randomChoice k2 fb.responses := by
        unfold select_response
        rw [hf, hf2]
      rcases hstep fb.responses k2 with h | ⟨s, hsmem, h⟩
      · exact Or.inl (hsel.trans h)
      · exact Or.inr (Or.inl ⟨fb, List.mem_of_find?_eq_some hf2, s, hsmem, hsel.trans h⟩)
    | none =>
      have hsel : select_response intents k1 k2 tag = randomChoice k2 fallback_responses := by
        unfold select_response
        rw [hf, hf2]
      rcases hstep fallback_responses k2 with h | ⟨s, hsmem, h⟩
      · exact Or.inl (hsel.trans h)
      · exact Or.inr (Or.inr ⟨s, hsmem, hsel.trans h⟩)

/-- Every value chatbot_response can return: the apology (some exception
was raised and caught), a response of some catalog record, or one of the
built-in generic replies.  In particular it always returns a string:
nothing propagates to the caller. -/
theorem chatbot_response_cases (predictTag : String → Except Unit String)
    (intents : Catalog) (k1 k2 : Nat) (input : String) :
    chatbot_response predictTag intents k1 k2 input = apology
    ∨ (∃ r ∈ intents, chatbot_response predictTag intents k1 k2 input ∈ r.responses)
    ∨ chatbot_response predictTag intents k1 k2 input ∈ fallback_responses := by
  cases hp : predictTag (lower input) with
  | error e =>
    cases e
    exact Or.inl (chatbot_response_of_err predictTag intents k1 k2 input hp)
  | ok tag =>
    rcases select_response_cases intents k1 k2 tag with
      h | ⟨r, hr, s, hsmem, h⟩ | ⟨s, hsmem, h⟩
    · exact Or.inl (chatbot_response_of_selerr predictTag intents k1 k2 input tag hp h)
    · refine Or.inr (Or.inl ⟨r, hr, ?_⟩)
      rw [chatbot_response_of_ok predictTag intents k1 k2 input tag s hp h]
      exact hsmem
    · refine Or.inr (Or.inr ?_)
      rw [chatbot_response_of_ok predictTag intents k1 k2 input tag s hp h]
      exact hsmem

/-- C3 (amended): chatbot_response always returns a string — any exception
raised during vectorization, prediction or selection is caught and mapped
to the apology, never propagated — and the returned string is nonempty
provided every response string registered in the catalog is nonempty (the
built-in replies and the apology are nonempty literals). -/
theorem c3_total_and_nonempty (predictTag : String → Except Unit String)
    (intents : Catalog) (k1 k2 : Nat) (input : String)
    (hne : ∀ r ∈ intents, ∀ s ∈ r.responses, s ≠ "") :
    chatbot_response predictTag intents k1 k2 input ≠ "" := by
  rcases chatbot_response_cases predictTag intents k1 k2 input with h | ⟨r, hr, h⟩ | h
  · rw [h]
    simp [apology]
  · exact hne r hr _ h
  · intro h0
    rw [h0] at h
    revert h
    decide

/-- A well-formed two-record catalog one of whose records registers the
empty string as its only response. -/
def emptyReplyCatalog : Catalog :=
  [⟨"t", ["x"], [""]⟩, ⟨"u", ["y"], ["ok"]⟩]

/-- C3 is refuted as stated: with a catalog record whose registered
response is the empty string, an input predicted into that record's tag
makes chatbot_response return the empty string — no exception is raised,
the empty reply is simply selected by the first loop. -/
theorem c3_counterexample :
    chatbot_response (fun _ => Except.ok "t") emptyReplyCatalog 0 0 "hello" = "" := by
  decide

/-- A small two-intent demonstration catalog for concrete evaluations. -/
def demoCatalog : Catalog :=
  [⟨"greet", ["hi"], ["hey"]⟩, ⟨"bye", ["bye"], ["see you"]⟩]

/-- A one-token-per-text tokenizer standing in for nltk.word_tokenize in
the concrete evaluations. -/
def demoTok (s : String) : List String := [s]

/-- A constant idf family for the concrete evaluations. -/
def demoIdfF (_texts : List String) (_v : String) : ℤ := 1

/-- A concrete fitted score family for the evaluations: the score of
"greet" reads the "hi" component, any other class the "bye" component. -/
def demoFitF (_seed : Nat) (_patterns _tags : List String)
    (cls : String) (x : String → ℤ) : ℤ :=
  if cls = "greet" then x "hi" else x "bye"

/-- The models initialize_models fits on the demonstration catalog. -/
def demoModels : Models :=
  (initialize_models demoTok demoIdfF demoFitF demoCatalog).getD
    ⟨[], fun _ => 0, [], fun _ _ => 0⟩

/-- A catalog carrying an explicit fallback record. -/
def fallbackCatalog : Catalog :=
  [⟨"greet", ["hi"], ["hey"]⟩, ⟨"fallback", ["??"], ["I do not understand."]⟩]

theorem c1_witness :
    chatbot_response (fun _ => Except.ok "greet") demoCatalog 3 5 "hi"
      ∈ (IntentRecord.mk "greet" ["hi"] ["hey"]).responses :=
  c1_selected_response_mem demoCatalog (IntentRecord.mk "greet" ["hi"] ["hey"])
    "greet" 3 5 "hi" (by decide) (by decide) (by decide) (by decide)

theorem c2_witness :
    chatbot_response (fun _ => Except.ok "weather") fallbackCatalog 0 0 "weather"
      ∈ (IntentRecord.mk "fallback" ["??"] ["I do not understand."]).responses :=
  (c2_fallback_selection fallbackCatalog "weather" 0 0 "weather" (by decide)
      (by decide)).1
    (IntentRecord.mk "fallback" ["??"] ["I do not understand."])
    (by decide) (by decide) (by decide)

theorem c3_witness :
    chatbot_response (fun _ => Except.ok "greet") demoCatalog 0 0 "hi" ≠ "" :=
  c3_total_and_nonempty (fun _ => Except.ok "greet") demoCatalog 0 0 "hi" (by decide)

theorem c5_witness :
    trainingTags demoCatalog ≠ []
    ∧ ∃ tag, pipelinePredict demoTok (fun _ => 1) (demoFitF 0 [] [])
          demoCatalog "hi" = some tag
        ∧ tag ∈ trainingTags demoCatalog :=
  ⟨by decide,
    ((c5_prediction_shape demoTok (fun _ => 1) (demoFitF 0 [] []) demoCatalog "hi"
        (by decide)).2.2).elim fun tag h => ⟨tag, h.1, h.2.1⟩⟩

theorem c6_witness :
    initialize_models demoTok demoIdfF demoFitF demoCatalog = some demoModels
    ∧ predictWithModels demoTok demoModels "hi"
        = predictWithModels demoTok demoModels "hi" :=
  ⟨rfl, c6_training_deterministic demoTok demoIdfF demoFitF demoCatalog
    demoModels demoModels "hi" rfl rfl⟩

theorem c7_witness :
    (startup demoTok demoIdfF demoFitF (LoadResult.parsed demoCatalog)).isSome = true
    ∧ ∃ c, LoadResult.parsed demoCatalog = LoadResult.parsed c
        ∧ trainingTags c ≠ [] ∧ trainingPatterns c ≠ [] :=
  ⟨rfl, c7_no_serving_on_empty_training demoTok demoIdfF demoFitF
    (LoadResult.parsed demoCatalog) rfl⟩

theorem c9_witness :
    pipelinePredict demoTok (fun _ => 1) (demoFitF 0 [] []) demoCatalog "hi"
      = some "greet" :=
  c9_verbatim_pattern_tag demoTok (fun _ => 1) (demoFitF 0 [] []) demoCatalog
    (by decide) (IntentRecord.mk "greet" ["hi"] ["hey"]) (by decide) "hi" (by decide)
